import Mathlib

/-!
Verification of the pysomneo resilient request layer (`src/pysomneo/api.py`)
and its refresh scheduling contract, via a shallow embedding in Lean 4.

The embedding models:
* the `requests` exception hierarchy as far as `SomneoSession._classify_error`
  inspects it (`isinstance` checks against `ConnectTimeout`, `ReadTimeout`,
  `ConnectionError`, `Timeout`, and the `RequestException` fallback, plus the
  `__cause__ is NewConnectionError` test);
* `SomneoSession._get_sleep_time` (exponential backoff with a 10 second cap);
* the retry loop of `SomneoSession.request`: three attempts, the 422 check
  that raises `SomneoInvalidURLError` inside the `try` block, the
  classification/pool-reset/backoff handling of caught exceptions, the
  `raise last_exc` on exhaustion, and the sessionless one-shot branch
  (which passes `timeout=` both explicitly and inside `**kwargs`);
* `SomneoClient.get_description_xml`: HTTPS-then-HTTP discovery with
  `raise_for_status`, immediate XML parsing, and re-raising the last error.

Machine behaviour (what the network does on each attempt, whether a pool
reset completes without an `OSError`/`RuntimeError`) is supplied as explicit
oracle functions, so a run of the loop is a pure computation producing a
trace: attempts entered, sleeps performed, completed pool resets, and the
final outcome.
-/

namespace Pysomneo

/-- The exception classes relevant to `SomneoSession._classify_error`.
`connectTimeoutC` is `requests.exceptions.ConnectTimeout` (a subclass of both
`ConnectionError` and `Timeout`), `readTimeoutC` is `ReadTimeout` (a subclass
of `Timeout`), `connectionErrorC` is a `ConnectionError` that is not a
`ConnectTimeout`, `timeoutC` is a `Timeout` that is neither `ConnectTimeout`
nor `ReadTimeout`, `invalidURLC` is `SomneoInvalidURLError` (a direct
`RequestException` subclass), and `requestExceptionC` is any other
`RequestException`. -/
inductive ExcClass where
  | connectTimeoutC
  | readTimeoutC
  | connectionErrorC
  | timeoutC
  | invalidURLC
  | requestExceptionC
deriving DecidableEq, Repr

/-- A caught exception: its class together with whether its `__cause__` is a
`urllib3` `NewConnectionError` (the only attribute `_classify_error` reads). -/
structure PyExc where
  cls : ExcClass
  causeNewConnection : Bool
deriving DecidableEq, Repr

/-- Test `isinstance(e, ConnectTimeout)`. -/
def isConnectTimeout : ExcClass → Bool
  | .connectTimeoutC => true
  | _ => false

/-- Test `isinstance(e, ReadTimeout)` (for classes not already ConnectTimeout). -/
def isReadTimeout : ExcClass → Bool
  | .readTimeoutC => true
  | _ => false

/-- Test `isinstance(e, ConnectionError)`: holds for `ConnectTimeout` as well,
since `ConnectTimeout` derives from `ConnectionError` in `requests`. -/
def isConnectionError : ExcClass → Bool
  | .connectTimeoutC => true
  | .connectionErrorC => true
  | _ => false

/-- Test `isinstance(e, Timeout)`: holds for `ConnectTimeout` and `ReadTimeout`
as well, both being `Timeout` subclasses in `requests`. -/
def isTimeoutClass : ExcClass → Bool
  | .connectTimeoutC => true
  | .readTimeoutC => true
  | .timeoutC => true
  | _ => false

/-- Source `SomneoSession._classify_error` (api.py lines 100-117): successive
`isinstance` checks in source order, returning
`(err_type, reset_pool, weight)`. -/
def classify_error (e : PyExc) : String × Bool × ℚ :=
  if isConnectTimeout e.cls then ("ConnectTimeout", true, 3/2)
  else if isReadTimeout e.cls then ("ReadTimeout", false, 2)
  else if isConnectionError e.cls then
    if e.causeNewConnection then ("NewConnectionError", true, 1/4)
    else ("ConnectionError", true, 1)
  else if isTimeoutClass e.cls then ("Timeout", false, 1/2)
  else ("RequestException", false, 3/4)

/-- Python's built-in two-argument `min`. -/
def pymin (a b : ℚ) : ℚ := if a ≤ b then a else b

/-- Source `SomneoSession._get_sleep_time` (api.py lines 96-98):
`min(weight * (2**(attempt - 1)), 10)`. -/
def get_sleep_time (weight : ℚ) (attempt : Nat) : ℚ :=
  pymin (weight * 2 ^ (attempt - 1)) 10

/-- What the network/device does on one HTTP attempt: either a response with
a status code, or a raised `requests` exception. -/
inductive AttemptOutcome where
  | ok (status : Nat)
  | fail (e : PyExc)
deriving DecidableEq, Repr

/-- Final outcome of `SomneoSession.request`: a returned response status, a
re-raised caught exception (`raise last_exc`), a `TypeError` escaping the
sessionless branch (duplicate `timeout` keyword argument), or the
unreachable `raise RequestException("Unknown error ...")`. -/
inductive ReqOutcome where
  | ok (status : Nat)
  | err (e : PyExc)
  | typeError
  | unknownError
deriving DecidableEq, Repr

/-- Trace of one `SomneoSession.request` call: attempts entered, backoff
sleeps performed in order, completed pool resets, and the outcome. -/
structure RunResult where
  attempts : Nat
  sleeps : List ℚ
  resets : Nat
  outcome : ReqOutcome
deriving DecidableEq, Repr

/-- Constant `max_attempts = 3` (api.py line 128). -/
def maxAttempts : Nat := 3

/-- The body of the `try` block for one attempt (api.py lines 133-143),
after the response has been obtained: a 422 status raises
`SomneoInvalidURLError` — which, being a `RequestException`, is caught by
the surrounding `except` clause — and any other status is returned. -/
def checkedResponse : AttemptOutcome → Except PyExc Nat
  | .ok s => if s = 422 then .error ⟨.invalidURLC, false⟩ else .ok s
  | .fail e => .error e

/-- One attempt's interaction with the HTTP layer (api.py lines 134-137).
With `use_session` the pooled `super().request(**kwargs)` is used. Without
it, the code calls `requests.request(method, full_url, timeout=self._timeout,
**kwargs)`; since lines 125-126 have already put `"timeout"` into `kwargs`,
the keyword is passed twice and Python raises `TypeError` (modelled as
`none`) before any network traffic. -/
def attemptBody (useSession kwargsHasTimeout : Bool) (beh : Nat → AttemptOutcome)
    (attempt : Nat) : Option (Except PyExc Nat) :=
  if useSession then some (checkedResponse (beh attempt))
  else if kwargsHasTimeout then none
  else some (checkedResponse (beh attempt))

/-- Whether the caught exception triggers a completed pool reset (api.py
lines 164-181): the classifier must demand a reset, `attempt <= max_attempts`
must hold, the session must be in use, no reset may have completed yet, and
`_reset_session_pool` itself must not raise (`resetOk attempt`). -/
def resetDone (useSession hasReset : Bool) (resetOk : Nat → Bool)
    (resetPool : Bool) (attempt : Nat) : Bool :=
  resetPool && decide (attempt ≤ maxAttempts) && useSession && !hasReset
    && resetOk attempt

/-- Combine one failed attempt's bookkeeping with the trace of the remaining
attempts: the attempt is counted, the backoff sleep happens only when
`attempt < max_attempts` (api.py line 186), and a completed reset is
counted. -/
def stepTrace (attempt : Nat) (didReset : Bool) (slp : ℚ) (rest : RunResult) :
    RunResult where
  attempts := rest.attempts + 1
  sleeps := (if attempt < maxAttempts then [slp] else []) ++ rest.sleeps
  resets := rest.resets + (if didReset then 1 else 0)
  outcome := rest.outcome

/-- Loop exit (api.py lines 196-199): `raise last_exc` when set, otherwise
`raise RequestException("Unknown error in SomneoSession.request")`. -/
def exhausted : Option PyExc → RunResult
  | some e => ⟨0, [], 0, ReqOutcome.err e⟩
  | none => ⟨0, [], 0, ReqOutcome.unknownError⟩

/-- The retry loop of `SomneoSession.request` (api.py lines 132-199), indexed
by remaining iterations (`fuel`), the current 1-based attempt number, the
`has_reset_pool` flag, and `last_exc`. -/
def runFrom (useSession kwargsHasTimeout : Bool) (resetOk : Nat → Bool)
    (beh : Nat → AttemptOutcome) :
    Nat → Nat → Bool → Option PyExc → RunResult
  | 0, _, _, lastExc => exhausted lastExc
  | fuel + 1, attempt, hasReset, _ =>
    match attemptBody useSession kwargsHasTimeout beh attempt with
    | none => ⟨1, [], 0, ReqOutcome.typeError⟩
    | some (Except.ok s) => ⟨1, [], 0, ReqOutcome.ok s⟩
    | some (Except.error e) =>
      stepTrace attempt
        (resetDone useSession hasReset resetOk (classify_error e).2.1 attempt)
        (get_sleep_time (classify_error e).2.2 attempt)
        (runFrom useSession kwargsHasTimeout resetOk beh fuel (attempt + 1)
          (hasReset || resetDone useSession hasReset resetOk
            (classify_error e).2.1 attempt)
          (some e))

/-- Source `SomneoSession.request` (api.py lines 119-199). `callerKwargsHasTimeout`
records whether the caller passed a `timeout` keyword; lines 125-126 insert
the default when absent, so `kwargs` always contains `"timeout"` when the
loop starts. -/
def request (useSession callerKwargsHasTimeout : Bool) (resetOk : Nat → Bool)
    (beh : Nat → AttemptOutcome) : RunResult :=
  let kwargsHasTimeout := if callerKwargsHasTimeout then callerKwargsHasTimeout
    else true
  runFrom useSession kwargsHasTimeout resetOk beh maxAttempts 1 false none

/-- The failure-classification table exactly as the spec states it in §4.1
(one row per failure kind, giving the pool-reset flag and the backoff
weight), written from the spec's words for comparison with the source's
`_classify_error`. -/
def specFailureTable (e : PyExc) : Bool × ℚ :=
  match e.cls with
  | .connectTimeoutC => (true, 3/2)
  | .readTimeoutC => (false, 2)
  | .connectionErrorC =>
      if e.causeNewConnection then (true, 1/4) else (true, 1)
  | .timeoutC => (false, 1/2)
  | .invalidURLC => (false, 3/4)
  | .requestExceptionC => (false, 3/4)

/-- The six backoff weights appearing in `_classify_error`. -/
def backoffWeights : List ℚ := [3/2, 2, 1/4, 1, 1/2, 3/4]

/-! ## Device-description discovery (`SomneoClient.get_description_xml`) -/

/-- What one discovery URL yields: either `self.session.request` raises a
`RequestException` (any member of the family, after its internal retries),
or a response arrives with a status code and content whose XML validity and
parsed root are recorded (`root` is an abstract identifier of the parsed
tree). -/
inductive FetchOutcome where
  | raiseReq
  | resp (status : Nat) (validXml : Bool) (root : Nat)
deriving DecidableEq, Repr

/-- The two exception shapes caught per URL in `get_description_xml`
(api.py lines 271-276): a `RequestException` (from the request itself or
from `raise_for_status`) or an `ET.ParseError`. -/
inductive DescErr where
  | reqErr
  | parseErr
deriving DecidableEq, Repr

/-- Result of `get_description_xml`: a parsed root returned, the last
observed error re-raised, or the trailing `return None` (api.py line 285). -/
inductive DescResult where
  | root (r : Nat)
  | raised (e : DescErr)
  | returnedNone
deriving DecidableEq, Repr

/-- One iteration of the URL loop body (api.py lines 262-276): perform the
request, call `raise_for_status` (which raises `HTTPError`, a
`RequestException`, exactly when `400 <= status < 600`), then parse the
content with `ET.fromstring`. -/
def tryDescriptionUrl : FetchOutcome → Except DescErr Nat
  | .raiseReq => .error .reqErr
  | .resp status validXml root =>
    if 400 ≤ status ∧ status < 600 then .error .reqErr
    else if validXml then .ok root
    else .error .parseErr

/-- The `for url in urls` loop of `get_description_xml` with its `last_exc`
accumulator (api.py lines 259-285). -/
def descLoop : Option DescErr → List FetchOutcome → DescResult
  | lastExc, [] =>
    match lastExc with
    | some e => .raised e
    | none => .returnedNone
  | _, o :: rest =>
    match tryDescriptionUrl o with
    | .ok r => .root r
    | .error e => descLoop (some e) rest

/-- Source `SomneoClient.get_description_xml` (api.py lines 248-285): try the HTTPS
URL, then the HTTP URL. -/
def get_description_xml (httpsOut httpOut : FetchOutcome) : DescResult :=
  descLoop none [httpsOut, httpOut]

/-! ## Refresh scheduler

Modelled from the spec: the tiered Refresh Scheduler of spec §4.3 (fast and
slow elapsed-time gates, `force_slow_refresh`) is not present in the source
tree — `Somneo.update` / `Somneo.fetch_data` in `__init__.py` fetch every
block unconditionally on each call — so the scheduler below follows the
spec's words: the fast tier fires when `now - last_fast >= fast_interval`
and triggers the sensor and live-status fetches; the slow tier fires when
`now - last_slow >= slow_interval` or on a forced refresh and triggers the
light, sunset, alarm, snooze and player fetches; a firing tier updates its
timestamp to `now`; a non-firing tier triggers nothing. -/

/-- The individual fetch actions a refresh can trigger. -/
inductive Fetch where
  | sensor
  | liveStatus
  | light
  | sunset
  | alarm
  | snooze
  | player
deriving DecidableEq, Repr

/-- Modelled from the spec: the fast tier's fetch set (sensor + live
status). -/
def fastFetches : List Fetch := [.sensor, .liveStatus]

/-- Modelled from the spec: the slow tier's fetch set
(light/sunset/alarm/snooze/player). -/
def slowFetches : List Fetch := [.light, .sunset, .alarm, .snooze, .player]

/-- Modelled from the spec: per-tier last-fetch timestamps of the Refresh
Scheduler. -/
structure RefreshState where
  lastFast : ℚ
  lastSlow : ℚ
deriving DecidableEq, Repr

/-- Modelled from the spec: one `refresh(force_slow)` call of the Refresh
Scheduler (spec §4.3), returning the updated timestamps and the list of
fetches triggered. -/
def refresh (fastInterval slowInterval now : ℚ) (forceSlow : Bool)
    (st : RefreshState) : RefreshState × List Fetch :=
  let fastFires := decide (fastInterval ≤ now - st.lastFast)
  let slowFires := decide (slowInterval ≤ now - st.lastSlow) || forceSlow
  (⟨if fastFires then now else st.lastFast,
    if slowFires then now else st.lastSlow⟩,
   (if fastFires then fastFetches else [])
     ++ (if slowFires then slowFetches else []))

/-! ## Helper lemmas -/

/-- Function `pymin` agrees with the order-theoretic minimum on ℚ. -/
lemma pymin_eq_min (a b : ℚ) : pymin a b = min a b := by
  simp [pymin, min_def]

@[simp] lemma stepTrace_attempts (a : Nat) (d : Bool) (s : ℚ) (r : RunResult) :
    (stepTrace a d s r).attempts = r.attempts + 1 := rfl

@[simp] lemma stepTrace_sleeps (a : Nat) (d : Bool) (s : ℚ) (r : RunResult) :
    (stepTrace a d s r).sleeps
      = (if a < maxAttempts then [s] else []) ++ r.sleeps := rfl

@[simp] lemma stepTrace_resets (a : Nat) (d : Bool) (s : ℚ) (r : RunResult) :
    (stepTrace a d s r).resets = r.resets + (if d then 1 else 0) := rfl

@[simp] lemma stepTrace_outcome (a : Nat) (d : Bool) (s : ℚ) (r : RunResult) :
    (stepTrace a d s r).outcome = r.outcome := rfl

/-- Once `has_reset_pool` is set, the reset condition is false. -/
@[simp] lemma resetDone_hasReset (us : Bool) (ro : Nat → Bool) (rp : Bool)
    (a : Nat) : resetDone us true ro rp a = false := by
  simp [resetDone]

/-- After a completed reset, no further iteration completes a reset. -/
lemma runFrom_resets_hasReset (us kt : Bool) (ro : Nat → Bool)
    (beh : Nat → AttemptOutcome) :
    ∀ fuel attempt le, (runFrom us kt ro beh fuel attempt true le).resets = 0 := by
  intro fuel
  induction fuel with
  | zero => intro attempt le; cases le <;> rfl
  | succ n ih =>
    intro attempt le
    simp only [runFrom]
    cases hb : attemptBody us kt beh attempt with
    | none => rfl
    | some r =>
      cases r with
      | ok s => rfl
      | error e =>
        simp only [stepTrace_resets, resetDone_hasReset, Bool.true_or,
          if_neg Bool.false_ne_true, ih]

/-- Across one whole attempt sequence the pool reset completes at most
once, whatever the flags and oracles. -/
lemma runFrom_resets_le_one (us kt : Bool) (ro : Nat → Bool)
    (beh : Nat → AttemptOutcome) :
    ∀ fuel attempt hr le, (runFrom us kt ro beh fuel attempt hr le).resets ≤ 1 := by
  intro fuel
  induction fuel with
  | zero => intro attempt hr le; cases le <;> simp [runFrom, exhausted]
  | succ n ih =>
    intro attempt hr le
    simp only [runFrom]
    cases hb : attemptBody us kt beh attempt with
    | none => simp
    | some r =>
      cases r with
      | ok s => simp
      | error e =>
        simp only [stepTrace_resets]
        cases hd : resetDone us hr ro (classify_error e).2.1 attempt with
        | false => simpa using ih (attempt + 1) (hr || false) (some e)
        | true =>
          rw [Bool.or_true, runFrom_resets_hasReset]
          simp

/-- The loop performs a backoff sleep only when `attempt < max_attempts`,
so a run entered at `attempt` sleeps at most `max_attempts - attempt`
times. -/
lemma runFrom_sleeps_length (us kt : Bool) (ro : Nat → Bool)
    (beh : Nat → AttemptOutcome) :
    ∀ fuel attempt hr le, attempt + fuel = maxAttempts + 1 →
      (runFrom us kt ro beh fuel attempt hr le).sleeps.length
        ≤ maxAttempts - attempt := by
  intro fuel
  induction fuel with
  | zero => intro attempt hr le h; cases le <;> simp [runFrom, exhausted]
  | succ n ih =>
    intro attempt hr le h
    simp only [runFrom]
    cases hb : attemptBody us kt beh attempt with
    | none => simp
    | some r =>
      cases r with
      | ok s => simp
      | error e =>
        have hrest := ih (attempt + 1)
          (hr || resetDone us hr ro (classify_error e).2.1 attempt) (some e)
          (by omega)
        simp only [stepTrace_sleeps, List.length_append]
        by_cases hA : attempt < maxAttempts
        · simp only [if_pos hA, List.length_singleton]
          simp only [maxAttempts] at hrest h hA ⊢
          omega
        · simp only [if_neg hA, List.length_nil]
          simp only [maxAttempts] at hrest h hA ⊢
          omega

/-! ## Claim theorems -/

/-- C1: the claim says a 422 response raises `SomneoInvalidURLError`
immediately during attempt 1, with no backoff sleep and no retry. The code
does not do this: the `raise` sits inside the `try` block whose `except`
clause catches `RequestException` — the superclass of
`SomneoInvalidURLError` — so the error is caught, classified as a generic
`RequestException` (no reset, weight 0.75), retried with backoff sleeps of
0.75 s and 1.5 s, and re-raised only after all 3 attempts. This theorem
evaluates the embedded `request` on a device that answers 422 on every
attempt. -/
theorem request_422_is_retried_not_fast_failed :
    request true false (fun _ => true) (fun _ => AttemptOutcome.ok 422)
      = ⟨3, [3/4, 3/2], 0,
          ReqOutcome.err ⟨ExcClass.invalidURLC, false⟩⟩ := by
  have hrun : request true false (fun _ => true) (fun _ => AttemptOutcome.ok 422)
      = ⟨3, [get_sleep_time (3/4) 1, get_sleep_time (3/4) 2], 0,
          ReqOutcome.err ⟨ExcClass.invalidURLC, false⟩⟩ := rfl
  rw [hrun]
  norm_num [get_sleep_time, pymin]

/-- C3: the claim says that with `use_session` disabled each request is a
standalone one-shot connection and a 2xx response is returned to the caller
as with pooling. The code instead raises `TypeError` on every sessionless
call: lines 125-126 always place `"timeout"` into `kwargs`, and line 137
passes `timeout=self._timeout` again, a duplicate keyword argument. The
theorem evaluates the embedded `request` with `use_session = False`, no
caller-supplied timeout, and a device ready to answer 200: the call dies in
attempt 1 with `TypeError`, never returning the response. -/
theorem sessionless_request_raises_typeerror :
    request false false (fun _ => true) (fun _ => AttemptOutcome.ok 200)
      = ⟨1, [], 0, ReqOutcome.typeError⟩ := rfl

/-- C4: across one `request` call the pool reset (`_reset_session_pool`
executed to completion) happens at most once, for every session flag,
caller kwargs, reset oracle and network behaviour — hence regardless of how
many attempt failures are reset-worthy. -/
theorem request_pool_reset_at_most_once (useSession kt : Bool)
    (ro : Nat → Bool) (beh : Nat → AttemptOutcome) :
    (request useSession kt ro beh).resets ≤ 1 :=
  runFrom_resets_le_one useSession (if kt then kt else true) ro beh
    maxAttempts 1 false none

/-- C5: for every network behaviour with at most two leading transient
failures followed by a response whose status is not 422, `request` returns
that response, using exactly one attempt per failure plus the successful
one, and never more than 3 attempts. (Attempts can only fail with transient
request errors on the session path: with `use_session` disabled every call
dies with `TypeError` before reaching the network, see C3.) -/
theorem request_retry_bound (kt : Bool) (ro : Nat → Bool)
    (beh : Nat → AttemptOutcome) (k : Nat) (hk : k ≤ 2) (s : Nat)
    (hfail : ∀ i, 1 ≤ i → i ≤ k → ∃ e, beh i = AttemptOutcome.fail e)
    (hs : beh (k + 1) = AttemptOutcome.ok s) (h422 : s ≠ 422) :
    (request true kt ro beh).outcome = ReqOutcome.ok s
      ∧ (request true kt ro beh).attempts = k + 1
      ∧ (request true kt ro beh).attempts ≤ 3 := by
  interval_cases k
  · simp [request, runFrom, attemptBody, checkedResponse, hs, h422, maxAttempts]
  · obtain ⟨e1, h1⟩ := hfail 1 le_rfl le_rfl
    simp [request, runFrom, attemptBody, checkedResponse, h1, hs, h422,
      maxAttempts]
  · obtain ⟨e1, h1⟩ := hfail 1 (by norm_num) (by norm_num)
    obtain ⟨e2, h2⟩ := hfail 2 (by norm_num) (by norm_num)
    simp [request, runFrom, attemptBody, checkedResponse, h1, h2, hs, h422,
      maxAttempts]

/-- Witness for C5: one read-timeout failure, then a 200 response; `request`
returns the 200 on attempt 2. -/
theorem request_retry_bound_witness :
    (∀ i, 1 ≤ i → i ≤ 1 →
        ∃ e, (fun j => if j = 1
            then AttemptOutcome.fail ⟨ExcClass.readTimeoutC, false⟩
            else AttemptOutcome.ok 200) i = AttemptOutcome.fail e)
    ∧ (request true false (fun _ => true)
        (fun j => if j = 1
          then AttemptOutcome.fail ⟨ExcClass.readTimeoutC, false⟩
          else AttemptOutcome.ok 200)).outcome = ReqOutcome.ok 200
    ∧ (request true false (fun _ => true)
        (fun j => if j = 1
          then AttemptOutcome.fail ⟨ExcClass.readTimeoutC, false⟩
          else AttemptOutcome.ok 200)).attempts = 1 + 1 := by
  have hfail : ∀ i, 1 ≤ i → i ≤ 1 →
      ∃ e, (fun j => if j = 1
          then AttemptOutcome.fail ⟨ExcClass.readTimeoutC, false⟩
          else AttemptOutcome.ok 200) i = AttemptOutcome.fail e := by
    intro i hi1 hi2
    have hi : i = 1 := le_antisymm hi2 hi1
    subst hi
    exact ⟨⟨ExcClass.readTimeoutC, false⟩, rfl⟩
  have h := request_retry_bound false (fun _ => true)
    (fun j => if j = 1
      then AttemptOutcome.fail ⟨ExcClass.readTimeoutC, false⟩
      else AttemptOutcome.ok 200) 1 (by norm_num) 200 hfail (by norm_num)
    (by norm_num)
  exact ⟨hfail, h.1, h.2.1⟩

/-- C6: when all three attempts fail with transient request errors,
`request` raises exactly the error observed on the third attempt (so its
classification kind is preserved for the caller), after exactly 3
attempts. -/
theorem request_retry_exhaustion (kt : Bool) (ro : Nat → Bool)
    (beh : Nat → AttemptOutcome) (e1 e2 e3 : PyExc)
    (h1 : beh 1 = AttemptOutcome.fail e1)
    (h2 : beh 2 = AttemptOutcome.fail e2)
    (h3 : beh 3 = AttemptOutcome.fail e3) :
    (request true kt ro beh).outcome = ReqOutcome.err e3
      ∧ (request true kt ro beh).attempts = 3 := by
  simp [request, runFrom, attemptBody, checkedResponse, h1, h2, h3,
    maxAttempts, exhausted]

/-- Witness for C6: three connection errors; the third one is re-raised. -/
theorem request_retry_exhaustion_witness :
    ((fun j : Nat => AttemptOutcome.fail
        (⟨ExcClass.connectionErrorC, j == 3⟩ : PyExc)) 1
      = AttemptOutcome.fail ⟨ExcClass.connectionErrorC, false⟩)
    ∧ (request true false (fun _ => true)
        (fun j => AttemptOutcome.fail ⟨ExcClass.connectionErrorC, j == 3⟩)).outcome
      = ReqOutcome.err ⟨ExcClass.connectionErrorC, true⟩ := by
  have h := request_retry_exhaustion false (fun _ => true)
    (fun j => AttemptOutcome.fail ⟨ExcClass.connectionErrorC, j == 3⟩)
    ⟨ExcClass.connectionErrorC, false⟩ ⟨ExcClass.connectionErrorC, false⟩
    ⟨ExcClass.connectionErrorC, true⟩ (by norm_num) (by norm_num) (by norm_num)
  exact ⟨by norm_num, h.1⟩

/-- C8: `_classify_error` returns exactly the (pool-reset flag, backoff
weight) pair of the spec's failure table, for every catchable exception. -/
theorem classify_error_matches_spec_table (e : PyExc) :
    ((classify_error e).2.1, (classify_error e).2.2) = specFailureTable e := by
  obtain ⟨c, b⟩ := e
  cases c <;> cases b <;> rfl

/-- C7: for every backoff weight of the classifier and every attempt number
`n >= 1`, the delay computed before attempt `n+1` is
`min(weight * 2^(n-1), 10)`; the delay is non-decreasing in `n` and capped
at 10 seconds; the loop never sleeps after its final attempt (at most
`max_attempts - 1` sleeps); and in a run whose attempts all fail, the sleeps
performed are exactly the computed delays for attempts 1 and 2. -/
theorem backoff_policy (w : ℚ) (hw : w ∈ backoffWeights) (n : Nat)
    (hn : 1 ≤ n) :
    get_sleep_time w n = min (w * 2 ^ (n - 1)) 10
      ∧ get_sleep_time w n ≤ get_sleep_time w (n + 1)
      ∧ get_sleep_time w n ≤ 10
      ∧ (∀ kt : Bool, ∀ ro : Nat → Bool, ∀ beh : Nat → AttemptOutcome,
          (request true kt ro beh).sleeps.length ≤ maxAttempts - 1)
      ∧ (∀ kt : Bool, ∀ ro : Nat → Bool, ∀ e : PyExc,
          (request true kt ro (fun _ => AttemptOutcome.fail e)).sleeps
            = [get_sleep_time (classify_error e).2.2 1,
               get_sleep_time (classify_error e).2.2 2]) := by
  have hw0 : 0 ≤ w := by
    fin_cases hw <;> norm_num
  refine ⟨by rw [get_sleep_time, pymin_eq_min], ?_, ?_, ?_, ?_⟩
  · simp only [get_sleep_time, pymin_eq_min, Nat.add_sub_cancel]
    refine min_le_min (mul_le_mul_of_nonneg_left ?_ hw0) le_rfl
    exact pow_le_pow_right₀ (by norm_num) (by omega)
  · rw [get_sleep_time, pymin_eq_min]
    exact min_le_right _ _
  · intro kt ro beh
    exact runFrom_sleeps_length true (if kt then kt else true) ro beh
      maxAttempts 1 false none rfl
  · intro kt ro e
    obtain ⟨c, b⟩ := e
    cases c <;> cases b <;> rfl

/-- Witness for C7 at weight 2 (read-timeout) and `n = 1`. -/
theorem backoff_policy_witness :
    (2 : ℚ) ∈ backoffWeights
    ∧ get_sleep_time 2 1 = min ((2 : ℚ) * 2 ^ (1 - 1)) 10
    ∧ get_sleep_time 2 1 ≤ get_sleep_time 2 (1 + 1)
    ∧ get_sleep_time 2 1 ≤ 10 := by
  have hm : (2 : ℚ) ∈ backoffWeights := by
    simp [backoffWeights]
  have h := backoff_policy 2 hm 1 le_rfl
  exact ⟨hm, h.1, h.2.1, h.2.2.1⟩

/-- C9: when the HTTPS attempt of `get_description_xml` fails with a request
error or an XML parse error and the HTTP attempt returns a success status
with valid XML, the method returns the root parsed from the HTTP response,
raising nothing. -/
theorem discovery_fallback_returns_http_root (httpsOut : FetchOutcome)
    (e : DescErr) (s r : Nat)
    (hfail : tryDescriptionUrl httpsOut = Except.error e) (hs : s < 400) :
    get_description_xml httpsOut (FetchOutcome.resp s true r)
      = DescResult.root r := by
  have hok : tryDescriptionUrl (FetchOutcome.resp s true r) = Except.ok r := by
    have : ¬(400 ≤ s ∧ s < 600) := by omega
    simp [tryDescriptionUrl, this]
  simp [get_description_xml, descLoop, hfail, hok]

/-- Witness for C9: HTTPS raises a request error, HTTP answers 200 with
valid XML parsing to root 7. -/
theorem discovery_fallback_returns_http_root_witness :
    tryDescriptionUrl FetchOutcome.raiseReq = Except.error DescErr.reqErr
    ∧ (200 : Nat) < 400
    ∧ get_description_xml FetchOutcome.raiseReq (FetchOutcome.resp 200 true 7)
        = DescResult.root 7 :=
  ⟨rfl, by norm_num,
    discovery_fallback_returns_http_root FetchOutcome.raiseReq DescErr.reqErr
      200 7 rfl (by norm_num)⟩

/-- C10: `get_description_xml` never reaches its trailing `return None`:
for all per-URL outcomes the result is a parsed root or a re-raised error,
and when both URLs fail the last (HTTP) error is re-raised. -/
theorem discovery_never_returns_none (httpsOut httpOut : FetchOutcome) :
    get_description_xml httpsOut httpOut ≠ DescResult.returnedNone
      ∧ (∀ e1 e2, tryDescriptionUrl httpsOut = Except.error e1 →
          tryDescriptionUrl httpOut = Except.error e2 →
          get_description_xml httpsOut httpOut = DescResult.raised e2) := by
  constructor
  · cases h1 : tryDescriptionUrl httpsOut <;>
      cases h2 : tryDescriptionUrl httpOut <;>
        simp [get_description_xml, descLoop, h1, h2]
  · intro e1 e2 h1 h2
    simp [get_description_xml, descLoop, h1, h2]

/-- Witness for C10: both URLs fail (request error then parse error); the
parse error from the HTTP attempt is re-raised. -/
theorem discovery_never_returns_none_witness :
    tryDescriptionUrl FetchOutcome.raiseReq = Except.error DescErr.reqErr
    ∧ tryDescriptionUrl (FetchOutcome.resp 200 false 0)
        = Except.error DescErr.parseErr
    ∧ get_description_xml FetchOutcome.raiseReq (FetchOutcome.resp 200 false 0)
        ≠ DescResult.returnedNone
    ∧ get_description_xml FetchOutcome.raiseReq (FetchOutcome.resp 200 false 0)
        = DescResult.raised DescErr.parseErr := by
  have h1 : tryDescriptionUrl FetchOutcome.raiseReq
      = Except.error DescErr.reqErr := rfl
  have h2 : tryDescriptionUrl (FetchOutcome.resp 200 false 0)
      = Except.error DescErr.parseErr := by
    have : ¬(400 ≤ (200 : Nat) ∧ (200 : Nat) < 600) := by omega
    simp [tryDescriptionUrl, this]
  have h := discovery_never_returns_none FetchOutcome.raiseReq
    (FetchOutcome.resp 200 false 0)
  exact ⟨h1, h2, h.1, h.2 DescErr.reqErr DescErr.parseErr h1 h2⟩

/-- C2: tier independence of the spec-modelled Refresh Scheduler with
`fast_interval = 5` and `slow_interval = 60`: starting from the state left
by a refresh at time `t` (both timestamps equal to `t`), a second refresh
within 5 seconds triggers zero fetches; a refresh 6 seconds later triggers
exactly the fast-tier fetches; and a forced refresh triggers the slow-tier
fetches from any state at any time. -/
theorem refresh_tier_independence (t d : ℚ) (st : RefreshState)
    (hf : st.lastFast = t) (hsl : st.lastSlow = t) :
    (d < 5 → (refresh 5 60 (t + d) false st).2 = [])
      ∧ (refresh 5 60 (t + 6) false st).2 = fastFetches
      ∧ (∀ now : ℚ, ∀ st2 : RefreshState,
          ∃ l, (refresh 5 60 now true st2).2 = l ++ slowFetches) := by
  refine ⟨?_, ?_, ?_⟩
  · intro hd
    have h1 : ¬(5 ≤ t + d - st.lastFast) := by rw [hf]; linarith
    have h2 : ¬(60 ≤ t + d - st.lastSlow) := by rw [hsl]; linarith
    simp [refresh, h1, h2]
  · have h1 : (5 : ℚ) ≤ t + 6 - st.lastFast := by rw [hf]; linarith
    have h2 : ¬(60 ≤ t + 6 - st.lastSlow) := by rw [hsl]; linarith
    simp [refresh, h1, h2]
  · intro now st2
    exact ⟨if 5 ≤ now - st2.lastFast then fastFetches else [], by
      simp [refresh]⟩

/-- Witness for C2 at `t = 0`, `d = 3`, state `(0, 0)`. -/
theorem refresh_tier_independence_witness :
    (RefreshState.mk 0 0).lastFast = 0
    ∧ (3 : ℚ) < 5
    ∧ (refresh 5 60 (0 + 3) false ⟨0, 0⟩).2 = []
    ∧ (refresh 5 60 (0 + 6) false ⟨0, 0⟩).2 = fastFetches := by
  have h := refresh_tier_independence 0 3 ⟨0, 0⟩ rfl rfl
  have h6 := refresh_tier_independence 0 6 ⟨0, 0⟩ rfl rfl
  exact ⟨rfl, by norm_num, h.1 (by norm_num), h6.2.1⟩

end Pysomneo
